import Mathlib

/-!
Verification of the ATAS voice-assistant middleware pipeline.

This file gives a shallow embedding of the deterministic text-processing
core of the repository: the Python regular-expression command catalog and
matcher used by `AndroidControlMiddleware.detect_command`
(src/android_control_middleware.py), the language detection, smoothing and
translation glue of src/language_middleware.py, the TTS text selector of
src/tts_sync_middleware.py, and the keyword intent classifier inside
`Assistant.process_query_with_middlewares` (src/agent.py).

Text is modelled as `List Char`.  External collaborators (the statistical
language detector `langdetect.detect` and the translation backend
`googletrans.Translator.translate`) are modelled as function parameters; a
`none` / `.error` result models the collaborator raising an exception.
Machine behaviour of Python string primitives (`lower`, `strip`, `split`,
`title`, substring `in`) is reproduced for the ASCII fragment exercised
here.
-/

namespace Atas

/-- Text of an utterance, modelled as a list of characters. -/
abbrev Text := List Char

/-- Coerce a Lean string literal to `Text`. -/
def txt (s : String) : Text := s.data

/-- Python whitespace for `str.strip` / `str.split`
    (space, tab, newline, carriage return, vertical tab, form feed). -/
def pyIsSpace (c : Char) : Bool :=
  c = ' ' || c = '\t' || c = '\n' || c = '\r' || c = '\x0b' || c = '\x0c'

/-- Python `str.lower()` (ASCII model). -/
def pyLower (t : Text) : Text := t.map Char.toLower

/-- Python `str.strip()`: drop leading and trailing whitespace. -/
def pyStrip (t : Text) : Text :=
  ((t.dropWhile pyIsSpace).reverse.dropWhile pyIsSpace).reverse

/-- Python `str.split()` with no argument: split on whitespace runs,
    discarding empty pieces. -/
def pySplit : Text → List Text
  | [] => []
  | c :: cs =>
    if pyIsSpace c then pySplit cs
    else
      match pySplit cs with
      | [] => [[c]]
      | w :: ws =>
        match cs with
        | [] => [[c]]
        | d :: _ => if pyIsSpace d then [c] :: w :: ws else (c :: w) :: ws

/-- Whether `needle` occurs starting at the head of `hay`. -/
def startsWith : Text → Text → Bool
  | [], _ => true
  | _ :: _, [] => false
  | n :: ns, h :: hs => n = h && startsWith ns hs

/-- Python substring test `needle in hay`. -/
def pyIn (needle : Text) : Text → Bool
  | [] => startsWith needle []
  | c :: cs => startsWith needle (c :: cs) || pyIn needle cs

/-- `any(kw in t for kw in kws)` over a keyword list. -/
def anyKeyword (kws : List Text) (t : Text) : Bool :=
  kws.any (fun kw => pyIn kw t)

/-- `any(ch in t for ch in set)`: does `t` contain any character of `set`? -/
def containsAnyChar (t : Text) (set : Text) : Bool :=
  set.any (fun c => t.contains c)

/-- Python `str.title()` (ASCII model): letters following a non-letter are
    uppercased, other letters lowercased. -/
def pyTitleGo : Bool → Text → Text
  | _, [] => []
  | prevAlpha, c :: cs =>
    if c.isAlpha then
      (if prevAlpha then c.toLower else c.toUpper) :: pyTitleGo true cs
    else
      c :: pyTitleGo false cs

/-- Python `str.title()`. -/
def pyTitle (t : Text) : Text := pyTitleGo false t

/-- `s.split(sep)[0]`: the part of `t` before the first occurrence of
    `sep` (all of `t` when `sep` does not occur). -/
def splitBefore (t sep : Text) : Text :=
  match t with
  | [] => []
  | c :: cs => if startsWith sep (c :: cs) then [] else c :: splitBefore cs sep

/-! ## Regular-expression engine

The Python `re` patterns used by the repository employ only: literal text,
the one-or-more classes `\w+` `\S+` `\d+` `.+` (greedy) and `.+?` (lazy),
alternation of literals, optional groups `(...)?`, and capture groups.
The matcher below reproduces `re.search` semantics for this fragment:
leftmost starting position first, and at a given position the usual
backtracking priority (left alternative first, greedy = longest first,
lazy = shortest first). -/

/-- Character classes appearing in the repository's patterns. -/
inductive CC
  | word     -- \w : [A-Za-z0-9_] (ASCII model)
  | nonspace -- \S
  | digit    -- \d
  | any      -- .  (anything but newline; no DOTALL flag in the source)
deriving DecidableEq, Repr

/-- ASCII word character (`\w`). -/
def isWordChar (c : Char) : Bool :=
  (97 ≤ c.toNat && c.toNat ≤ 122) || (65 ≤ c.toNat && c.toNat ≤ 90) ||
  (48 ≤ c.toNat && c.toNat ≤ 57) || c = '_'

/-- Semantics of a character class. -/
def ccMatch : CC → Char → Bool
  | .word, c => isWordChar c
  | .nonspace, c => !pyIsSpace c
  | .digit, c => 48 ≤ c.toNat && c.toNat ≤ 57
  | .any, c => c ≠ '\n'

/-- Regular expressions (the fragment used by the repository). `cls k lazy`
    is the one-or-more repetition `k+` (`k+?` when `lazy`). -/
inductive RE
  | lit (s : Text)
  | cls (k : CC) (lazyFlag : Bool)
  | cat (a b : RE)
  | alt (a b : RE)
  | opt (a : RE)
  | grp (i : Nat) (a : RE)
deriving DecidableEq, Repr

/-- Captured groups: group index paired with the captured text. -/
abbrev Caps := List (Nat × Text)

/-- Case-insensitive character comparison (re.IGNORECASE, ASCII model). -/
def ciEq (a b : Char) : Bool := a.toLower = b.toLower

/-- Consume the literal `s` (case-insensitively) from the head of the
    input, returning the rest. -/
def dropLit : Text → Text → Option Text
  | [], cs => some cs
  | _ :: _, [] => none
  | l :: ls, c :: cs => if ciEq l c then dropLit ls cs else none

/-- Try the continuation after consuming each length in `lens` characters. -/
def tryLens (cs : Text) (k : Text → Caps → Option Caps) (caps : Caps) :
    List Nat → Option Caps
  | [] => none
  | l :: ls => (k (cs.drop l) caps).orElse (fun _ => tryLens cs k caps ls)

/-- Match `k+` / `k+?` at the head of the input: consume between 1 and the
    maximal run length of class-`k` characters, longest first when greedy,
    shortest first when lazy. -/
def matchPlus (k : CC) (lazyFlag : Bool) (cs : Text)
    (cont : Text → Caps → Option Caps) (caps : Caps) : Option Caps :=
  let n := (cs.takeWhile (ccMatch k)).length
  let lens := (List.range n).map (· + 1)
  tryLens cs cont caps (if lazyFlag then lens else lens.reverse)

/-- Backtracking matcher in continuation-passing style: match `r` at the
    head of `cs`, passing the rest of the input and the accumulated
    captures to the continuation.  Alternatives are tried in priority
    order, so the first `some` is the Python backtracking result. -/
def mat : RE → Text → (Text → Caps → Option Caps) → Caps → Option Caps
  | .lit s, cs, k, caps =>
    match dropLit s cs with
    | some rest => k rest caps
    | none => none
  | .cls c lazyFlag, cs, k, caps => matchPlus c lazyFlag cs k caps
  | .cat a b, cs, k, caps => mat a cs (fun cs2 caps2 => mat b cs2 k caps2) caps
  | .alt a b, cs, k, caps =>
    (mat a cs k caps).orElse (fun _ => mat b cs k caps)
  | .opt a, cs, k, caps => (mat a cs k caps).orElse (fun _ => k cs caps)
  | .grp i a, cs, k, caps =>
    mat a cs (fun cs2 caps2 =>
      k cs2 (caps2 ++ [(i, cs.take (cs.length - cs2.length))])) caps

/-- `re.search`: try to match at position 0, then at position 1, …
    returning the captures of the first (leftmost) successful match. -/
def searchFrom (r : RE) : Text → Option Caps
  | [] => mat r [] (fun _ caps => some caps) []
  | c :: rest =>
    match mat r (c :: rest) (fun _ caps => some caps) [] with
    | some caps => some caps
    | none => searchFrom r rest

/-- `match.groups()`: the captures of groups `1..n` in order, `none` for a
    group that did not participate in the match. -/
def getGroups (n : Nat) (caps : Caps) : List (Option Text) :=
  (List.range n).map (fun i => (caps.find? (fun p => p.1 = i + 1)).map Prod.snd)

/-- `(.+)` : one or more non-newline characters, greedy. -/
def dotplus : RE := .cls .any false

/-- `(.+?)` : one or more non-newline characters, lazy. -/
def dotpluslazy : RE := .cls .any true

/-- `\w+` greedy. -/
def wplus : RE := .cls .word false

/-- `\d+` greedy. -/
def dplus : RE := .cls .digit false

/-- n-ary alternation, left alternative preferred (Python `a|b|c`). -/
def altL : List RE → RE
  | [] => .lit []
  | [r] => r
  | r :: rs => .alt r (altL rs)

/-- n-ary concatenation. -/
def catL : List RE → RE
  | [] => .lit []
  | [r] => r
  | r :: rs => .cat r (catL rs)

/-- Alternation of literal strings, e.g. `(up|down|low)`. -/
def litsAlt (ss : List String) : RE := altL (ss.map (fun s => .lit (txt s)))

/-! ## The device-command catalog

`COMMAND_PATTERNS` from src/android_control_middleware.py, in declaration
order.  Each entry is (name, pattern, number of capture groups).  The
source declares the key `whatsapp_view_profile` twice with the identical
pattern; a Python dict keeps the first position (and the value is the
same), so it appears once here, at its first position. -/

/-- `r'open (\w+)'` — the first pattern of the catalog. -/
def openAppRE : RE := .cat (.lit (txt "open ")) (.grp 1 wplus)

def COMMAND_PATTERNS : List (String × RE × Nat) :=
  [ -- Basic app control
    ("open_app", openAppRE, 1),
    ("close_app", .cat (.lit (txt "close ")) (.grp 1 wplus), 1),
    -- WhatsApp specific commands
    ("open_whatsapp", .lit (txt "open whatsapp"), 0),
    ("close_whatsapp", .lit (txt "close whatsapp"), 0),
    ("whatsapp_scroll_up", .lit (txt "scroll up in whatsapp"), 0),
    ("whatsapp_scroll_down", .lit (txt "scroll down in whatsapp"), 0),
    ("whatsapp_chat_with",
      catL [.lit (txt "chat with "), .grp 1 dotplus, .lit (txt " in whatsapp")], 1),
    ("whatsapp_view_status",
      catL [.lit (txt "view "), .grp 1 dotplus, .lit (txt " status in whatsapp")], 1),
    ("whatsapp_send_message",
      catL [.lit (txt "send "), .grp 1 dotplus, .lit (txt " to "), .grp 2 dotplus,
            .lit (txt " in whatsapp")], 2),
    ("whatsapp_call_contact",
      catL [.lit (txt "call "), .grp 1 dotplus, .lit (txt " on whatsapp")], 1),
    ("whatsapp_video_call",
      catL [.lit (txt "video call "), .grp 1 dotplus, .lit (txt " on whatsapp")], 1),
    ("whatsapp_view_profile",
      catL [.lit (txt "view "), .grp 1 dotplus, .lit (txt " profile in whatsapp")], 1),
    ("whatsapp_create_group",
      catL [.lit (txt "create group "), .grp 1 dotplus, .lit (txt " in whatsapp")], 1),
    ("whatsapp_add_to_group",
      catL [.lit (txt "add "), .grp 1 dotplus, .lit (txt " to group in whatsapp")], 1),
    ("whatsapp_summarize_chat",
      catL [.lit (txt "summarize "),
            .opt (.grp 1 (catL [.lit (txt "last "), dplus, .lit (txt " ")])),
            .lit (txt "message"), .opt (.lit (txt "s")), .lit (txt " with "),
            .grp 2 dotplus, .lit (txt " in whatsapp")], 2),
    ("whatsapp_mute_chat",
      catL [.lit (txt "mute "), .grp 1 dotplus, .lit (txt " chat in whatsapp")], 1),
    ("whatsapp_unmute_chat",
      catL [.lit (txt "unmute "), .grp 1 dotplus, .lit (txt " chat in whatsapp")], 1),
    -- Snapchat specific commands
    ("open_snapchat", .lit (txt "open snapchat"), 0),
    ("close_snapchat", .lit (txt "close snapchat"), 0),
    ("snapchat_view_stories", .lit (txt "view stories in snapchat"), 0),
    ("snapchat_send_snap",
      catL [.lit (txt "send snap to "), .grp 1 dotplus, .lit (txt " in snapchat")], 1),
    ("snapchat_chat_with",
      catL [.lit (txt "chat with "), .grp 1 dotplus, .lit (txt " in snapchat")], 1),
    ("snapchat_add_friend",
      catL [.lit (txt "add "), .grp 1 dotplus, .lit (txt " as friend in snapchat")], 1),
    ("snapchat_view_profile",
      catL [.lit (txt "view "), .grp 1 dotplus, .lit (txt " profile in snapchat")], 1),
    -- Instagram specific commands
    ("open_instagram", .lit (txt "open instagram"), 0),
    ("close_instagram", .lit (txt "close instagram"), 0),
    ("instagram_scroll_feed", .lit (txt "scroll feed in instagram"), 0),
    ("instagram_like_post", .lit (txt "like post in instagram"), 0),
    ("instagram_comment",
      catL [.lit (txt "comment "), .grp 1 dotplus, .lit (txt " on post in instagram")], 1),
    ("instagram_follow_user",
      catL [.lit (txt "follow "), .grp 1 dotplus, .lit (txt " on instagram")], 1),
    ("instagram_unfollow_user",
      catL [.lit (txt "unfollow "), .grp 1 dotplus, .lit (txt " on instagram")], 1),
    ("instagram_view_story",
      catL [.lit (txt "view "), .grp 1 dotplus, .lit (txt " story in instagram")], 1),
    ("instagram_send_dm",
      catL [.lit (txt "send "), .grp 1 dotplus, .lit (txt " to "), .grp 2 dotplus,
            .lit (txt " in instagram")], 2),
    -- Facebook specific commands
    ("open_facebook", .lit (txt "open facebook"), 0),
    ("close_facebook", .lit (txt "close facebook"), 0),
    ("facebook_scroll_feed", .lit (txt "scroll feed in facebook"), 0),
    ("facebook_like_post", .lit (txt "like post in facebook"), 0),
    ("facebook_comment",
      catL [.lit (txt "comment "), .grp 1 dotplus, .lit (txt " on post in facebook")], 1),
    ("facebook_share_post", .lit (txt "share post in facebook"), 0),
    -- YouTube specific commands
    ("search_youtube",
      catL [.lit (txt "search "), .grp 1 dotplus, .lit (txt " on youtube")], 1),
    ("play_youtube",
      catL [.lit (txt "play "), .grp 1 dotplus, .lit (txt " on youtube")], 1),
    ("youtube_subscribe",
      catL [.lit (txt "subscribe to "), .grp 1 dotplus, .lit (txt " on youtube")], 1),
    ("youtube_like_video", .lit (txt "like video on youtube"), 0),
    ("youtube_comment",
      catL [.lit (txt "comment "), .grp 1 dotplus, .lit (txt " on video")], 1),
    ("youtube_share_video", .lit (txt "share video on youtube"), 0),
    -- Device and system controls
    ("set_volume",
      catL [.grp 1 (litsAlt ["up","down","low","raise","mute","max","increase","decrease"]),
            .lit (txt " "), .opt (.grp 2 (.lit (txt "the "))), .lit (txt "volume")], 2),
    ("set_brightness",
      catL [.grp 1 (litsAlt ["set","turn","low","raise","increase","decrease"]),
            .lit (txt " brightness"), .opt (.grp 2 (.lit (txt " to"))), .lit (txt " "),
            .grp 3 dplus, .lit (txt "%")], 3),
    ("toggle_wifi",
      catL [.grp 1 (litsAlt ["turn on","turn off","enable","disable"]),
            .lit (txt " wifi")], 1),
    ("toggle_bluetooth",
      catL [.grp 1 (litsAlt ["turn on","turn off","enable","disable"]),
            .lit (txt " bluetooth")], 1),
    ("take_screenshot",
      catL [.grp 1 (litsAlt ["take","capture"]), .lit (txt " "),
            .opt (.grp 2 (.lit (txt "a "))), .lit (txt "screenshot")], 2),
    ("lock_device",
      catL [.lit (txt "lock "), .opt (.grp 1 (.lit (txt "the "))), .lit (txt "device")], 1),
    ("unlock_device",
      catL [.lit (txt "unlock "), .opt (.grp 1 (.lit (txt "the "))), .lit (txt "device")], 1),
    -- General commands
    ("scroll_feed",
      .cat (.lit (txt "scroll "))
        (.grp 1 (litsAlt ["feed","messages","whatsapp","facebook","instagram",
                          "shopping app","chrome","contacts","gallery","settings",
                          "notifications"])), 1),
    ("send_message", .cat (.lit (txt "send message to ")) (.grp 1 dotplus), 1),
    ("open_camera", .lit (txt "open camera"), 0),
    ("close_camera", .lit (txt "close camera"), 0),
    ("open_gallery", .lit (txt "open gallery"), 0),
    ("open_contacts", .lit (txt "open contacts"), 0),
    ("call_contact",
      catL [.grp 1 (litsAlt ["call","dial"]), .lit (txt " "), .grp 2 dotplus], 2),
    ("open_browser",
      .cat (.lit (txt "open "))
        (.grp 1 (litsAlt ["chrome","browser","firefox","edge","opera"])), 1),
    ("search_browser",
      catL [.lit (txt "search "), .grp 1 dotplus, .lit (txt " in "),
            .grp 2 (litsAlt ["chrome","browser","firefox","edge","opera"])], 2),
    ("visit_website",
      catL [.lit (txt "visit "), .grp 1 dotplus, .lit (txt " in "),
            .grp 2 (litsAlt ["chrome","browser","firefox","edge","opera"])], 2),
    -- Additional social media and apps
    ("open_tiktok", .lit (txt "open tiktok"), 0),
    ("open_twitter", .lit (txt "open twitter"), 0),
    ("open_linkedin", .lit (txt "open linkedin"), 0),
    ("open_telegram", .lit (txt "open telegram"), 0),
    ("open_discord", .lit (txt "open discord"), 0),
    ("open_zoom", .lit (txt "open zoom"), 0),
    ("open_teams", .lit (txt "open teams"), 0) ]

/-- The scan of `AndroidControlMiddleware.detect_command` over a catalog
    suffix: first pattern whose `re.search` (IGNORECASE) succeeds wins. -/
def detectGo (text : Text) : List (String × RE × Nat) → Option (String × List (Option Text))
  | [] => none
  | (name, r, n) :: rest =>
    match searchFrom r text with
    | some caps => some (name, getGroups n caps)
    | none => detectGo text rest

/-- `AndroidControlMiddleware.detect_command`: scan `COMMAND_PATTERNS` in
    declaration order, returning the name and `groups()` of the first
    pattern matching anywhere in the text; `none` models `(None, None)`. -/
def detect_command (text : Text) : Option (String × List (Option Text)) :=
  detectGo text COMMAND_PATTERNS

/-! ## Language middleware (src/language_middleware.py)

The statistical detector `langdetect.detect` is a parameter
`backend : Text → Option Text`; `none` models the detector raising.
The translation backend `translator.translate` is a parameter
`Text → Text → Except Unit (Option Text)`; `.error` models an exception
(including timeout), `.ok none` models a falsy result or missing text,
`.ok (some s)` models a result whose `.text` is `s`. -/

/-- Codes of the `SUPPORTED_LANGUAGES` dict. -/
def SUPPORTED_CODES : List Text :=
  [txt "en", txt "hi", txt "bn", txt "ta", txt "te", txt "mr", txt "gu",
   txt "kn", txt "ml", txt "pa", txt "ur", txt "fr", txt "es", txt "de",
   txt "zh-cn", txt "ru"]

/-- Devanagari characters tested by the short-text heuristic. -/
def hindiChars : Text := txt "अआइईउऊएऐओऔकखगघङचछजझञटठडढणतथदधनपफबभमयरलवशषसह"

/-- Bengali characters tested by the short-text heuristic. -/
def bengaliChars : Text := txt "অআইঈউঊঋএঐওঔকখগঘঙচছজঝঞটঠডঢণতথদধনপফবভমযরলশষসহ"

/-- Tamil characters tested by the short-text heuristic. -/
def tamilChars : Text := txt "அஆஇஈஉஊஎஏஐஒஓஔகஙசஞடணதநபமயரலவழளறன"

/-- French characters tested by the short-text heuristic. -/
def frenchChars : Text := txt "àâäéèêëïîôöùûüÿç"

/-- Spanish characters tested by the short-text heuristic. -/
def spanishChars : Text := txt "áéíóúüñ"

/-- German characters tested by the short-text heuristic. -/
def germanChars : Text := txt "äöüß"

/-- Russian characters tested by the short-text heuristic. -/
def russianChars : Text := txt "абвгдеёжзийклмнопрстуфхцчшщъыьэюя"

/-- Chinese characters tested by the short-text heuristic. -/
def chineseChars : Text :=
  txt "的一是不了人我在有他这为之大来以个中上们到说国和地也子时道出而要于得可你年生自会好用家学"

/-- Hindi common words of the lexical fallback (the source lists `hai`
    twice; kept as in the source). -/
def hindiWords : List Text :=
  [txt "hai", txt "hai", txt "ka", txt "ki", txt "ke", txt "se", txt "mein",
   txt "par", txt "aur", txt "ye", txt "wo", txt "kya", txt "kaun",
   txt "kahan", txt "kab"]

/-- Bengali common words of the lexical fallback. -/
def bengaliWords : List Text :=
  [txt "ami", txt "tumi", txt "se", txt "ke", txt "ei", txt "o", txt "ki",
   txt "kare", txt "kano", txt "kothay"]

/-- Tamil common words of the lexical fallback. -/
def tamilWords : List Text :=
  [txt "nan", txt "ne", txt "avan", txt "aval", txt "ithu", txt "athu",
   txt "enna", txt "epdi", txt "engal"]

/-- The character-set heuristic block of `detect_language` for texts of
    fewer than 3 words (src/language_middleware.py lines 43-58); `none`
    when no character set fires (execution then falls through to the
    statistical detector). -/
def shortTextHeuristic (t : Text) : Option Text :=
  if containsAnyChar t hindiChars then some (txt "hi")
  else if containsAnyChar t bengaliChars then some (txt "bn")
  else if containsAnyChar t tamilChars then some (txt "ta")
  else if containsAnyChar t frenchChars then some (txt "fr")
  else if containsAnyChar t spanishChars then some (txt "es")
  else if containsAnyChar t germanChars then some (txt "de")
  else if containsAnyChar t russianChars then some (txt "ru")
  else if containsAnyChar t chineseChars then some (txt "zh-cn")
  else none

/-- The lexical-keyword fallback (the `except` branch of
    `detect_language`, src/language_middleware.py lines 64-84). -/
def lexicalFallback (t : Text) : Text :=
  let tl := pyLower t
  if anyKeyword hindiWords tl then txt "hi"
  else if anyKeyword bengaliWords tl then txt "bn"
  else if anyKeyword tamilWords tl then txt "ta"
  else txt "en"

/-- `detect_language` (src/language_middleware.py lines 33-84). -/
def detect_language (backend : Text → Option Text) (text : Text) : Text :=
  if text = [] ∨ pyStrip text = [] then txt "en"
  else
    let t := pyStrip text
    match (if (pySplit t).length < 3 then shortTextHeuristic t else none) with
    | some l => l
    | none =>
      match backend t with
      | some lang => if SUPPORTED_CODES.contains lang then lang else txt "en"
      | none => lexicalFallback t

/-- `translate_text` (src/language_middleware.py lines 86-122). -/
def translate_text (backend : Text → Text → Except Unit (Option Text))
    (text : Text) (dest_lang : Text) : Text :=
  if text = [] ∨ pyStrip text = [] then text
  else if dest_lang = txt "en" then text
  else
    let t := pyStrip text
    if (pySplit t).length < 2 ∧ ¬ containsAnyChar t (txt ".,!?;:") = true then t
    else
      match backend t dest_lang with
      | .error _ => t
      | .ok none => t
      | .ok (some rtext) =>
        if pyStrip rtext = [] then t
        else
          let translated := pyStrip rtext
          if pyLower translated ≠ pyLower t then translated else t

/-- Count of occurrences of `x` in `l` (`Counter` count). -/
def countOcc (l : List Text) (x : Text) : Nat :=
  (l.filter (fun y => y = x)).length

/-- Deduplicate keeping first occurrences (the key order of a
    `collections.Counter` built from the list). -/
def dedupFirstAux (seen : List Text) : List Text → List Text
  | [] => []
  | x :: xs =>
    if seen.contains x then dedupFirstAux seen xs
    else x :: dedupFirstAux (x :: seen) xs

/-- `Counter(l).most_common(1)[0][0]`: an element of maximal count, ties
    broken in favour of the earliest first occurrence. -/
def mostCommon (l : List Text) : Option Text :=
  (dedupFirstAux [] l).foldl
    (fun best x =>
      match best with
      | none => some x
      | some b => if countOcc l b < countOcc l x then some x else some b)
    none

/-- The mutable state of `StrictPersonaAgentHook`. -/
structure LangState where
  user_lang : Text
  language_history : List Text
deriving DecidableEq, Repr

/-- The state update performed by
    `StrictPersonaAgentHook.process_user_input`
    (src/language_middleware.py lines 161-184), given the raw detection
    `detected` for this turn (`max_history = 5`). -/
def updateLanguage (st : LangState) (detected : Text) : LangState :=
  let hist0 := st.language_history ++ [detected]
  let hist := if 5 < hist0.length then hist0.tail else hist0
  if 3 ≤ hist.length then
    let lastThree := hist.drop (hist.length - 3)
    if mostCommon lastThree = some detected ∨ detected ≠ st.user_lang then
      ⟨detected, hist⟩
    else ⟨st.user_lang, hist⟩
  else ⟨detected, hist⟩

/-- `StrictPersonaAgentHook.process_user_input`: detect this turn's
    language and update the smoothing state. -/
def processUserInput (backend : Text → Option Text) (st : LangState)
    (text : Text) : LangState :=
  updateLanguage st (detect_language backend text)

/-! ## TTS text selector (src/tts_sync_middleware.py) -/

/-- `web_result if web_result else reply_text` (Python truthiness: an
    absent or empty web result falls back to the reply text). -/
def ttsSource (web_result : Option Text) (reply_text : Text) : Text :=
  match web_result with
  | some w => if w = [] then reply_text else w
  | none => reply_text

/-- `StrictTTSSyncMiddleware.get_strict_tts_text`
    (src/tts_sync_middleware.py lines 38-46). -/
def get_strict_tts_text (backend : Text → Text → Except Unit (Option Text))
    (reply_text : Text) (web_result : Option Text) (persona : Text)
    (tts_lang : Text) : Text :=
  let t := translate_text backend (ttsSource web_result reply_text) tts_lang
  if persona = txt "female" ∧ pyIn (txt "female") (pyLower t) = false then
    txt "(female persona) " ++ t
  else t

/-! ## Intent classifier (src/agent.py, `process_query_with_middlewares`
    lines 140-219; the branch taken when the Android middleware returned
    no result) -/

/-- Weather keywords (`tool_keywords['weather']`). -/
def weatherKeywords : List Text :=
  [txt "weather", txt "temperature", txt "forecast", txt "rain",
   txt "sunny", txt "climate"]

/-- Email keywords (`tool_keywords['email']`). -/
def emailKeywords : List Text :=
  [txt "email", txt "mail", txt "send", txt "gmail", txt "message",
   txt "compose"]

/-- Search keywords (`tool_keywords['search']`). -/
def searchKeywords : List Text :=
  [txt "search", txt "find", txt "look up", txt "google", txt "duckduckgo",
   txt "browse"]

/-- `question_patterns` of the information-query stage. -/
def questionPatterns : List Text :=
  [txt "what is", txt "who is", txt "when did", txt "where is",
   txt "why does", txt "how does", txt "how to", txt "tell me about",
   txt "explain", txt "define", txt "meaning of", txt "difference between",
   txt "what are", txt "who are", txt "when was", txt "where are",
   txt "why is", txt "how do", txt "can you tell me", txt "do you know",
   txt "i want to know"]

/-- `info_keywords` of the information-query stage. -/
def infoKeywords : List Text :=
  [txt "current", txt "latest", txt "news", txt "update", txt "fact",
   txt "information", txt "details about", txt "history of",
   txt "origin of", txt "cause of", txt "reason for", txt "about",
   txt "regarding", txt "population", txt "capital", txt "area",
   txt "located", txt "founded", txt "established"]

/-- Imperative search verbs of the information-query stage. -/
def imperativeSearchWords : List Text :=
  [txt "search", txt "find", txt "look up", txt "google", txt "tell me"]

/-- `r'weather (?:in|for|of) (\w+)'` (searched over the lowercased,
    stripped utterance). -/
def weatherRE : RE :=
  catL [.lit (txt "weather "),
        altL [.lit (txt "in"), .lit (txt "for"), .lit (txt "of")],
        .lit (txt " "), .grp 1 wplus]

/-- `r'send email to (\S+) subject (.+?) message (.+)'` with
    `re.IGNORECASE`, searched over the lowercased, stripped utterance. -/
def emailRE : RE :=
  catL [.lit (txt "send email to "), .grp 1 (.cls .nonspace false),
        .lit (txt " subject "), .grp 2 dotpluslazy,
        .lit (txt " message "), .grp 3 dotplus]

/-- The `(to_email, subject, message)` fields extracted by the email
    branch of `process_query_with_middlewares` (src/agent.py line 170):
    the regex is searched against `user_text.lower().strip()`. -/
def emailFields (user_text : Text) : Option (Text × Text × Text) :=
  match searchFrom emailRE (pyStrip (pyLower user_text)) with
  | some caps =>
    match caps.find? (fun p => p.1 = 1), caps.find? (fun p => p.1 = 2),
          caps.find? (fun p => p.1 = 3) with
    | some a, some b, some c => some (a.2, b.2, c.2)
    | _, _, _ => none
  | none => none

/-- The email clarification prompt (src/agent.py line 179). -/
def emailClarification : Text :=
  txt "To send an email, please say: 'send email to [email] subject [subject] message [message]'"

/-- The weather clarification prompt (src/agent.py line 166). -/
def weatherClarification : Text :=
  txt "Please specify a city name for weather information (e.g., 'weather in Delhi')."

/-- `AGENT_INSTRUCTION.split("# Examples")[0].strip()` — the generic
    static introductory statement returned by the conversational
    fallback (src/agent.py line 219). -/
def staticIntroStatement (agentInstruction : Text) : Text :=
  pyStrip (splitBefore agentInstruction (txt "# Examples"))

/-- The `agent_reply` computed by `process_query_with_middlewares`
    (src/agent.py lines 140-219) when the Android middleware matched
    nothing: tool keywords in the fixed order weather → email → search,
    then the information-query heuristics, then the conversational
    fallback.  `agentInstruction` is the `AGENT_INSTRUCTION` string
    imported from the (not vendored) `prompts` module. -/
def classifyAgentReply (agentInstruction : Text) (user_text : Text) : Text :=
  let tl := pyStrip (pyLower user_text)
  if anyKeyword weatherKeywords tl = true then
    match searchFrom weatherRE tl with
    | some caps =>
      match caps.find? (fun p => p.1 = 1) with
      | some c => txt "I'll check the weather for " ++ pyTitle c.2 ++ txt "."
      | none => weatherClarification
    | none => weatherClarification
  else if anyKeyword emailKeywords tl = true then
    match emailFields user_text with
    | some (toAddr, subj, _body) =>
      txt "I'll send an email to " ++ toAddr ++ txt " with subject '" ++
        subj ++ txt "'."
    | none => emailClarification
  else if anyKeyword searchKeywords tl = true then
    txt "I'll search for information about: " ++ user_text
  else
    let is_clear_question := anyKeyword questionPatterns tl
    let info_keyword_count := (infoKeywords.filter (fun kw => pyIn kw tl)).length
    let is_imperative_search := anyKeyword imperativeSearchWords tl
    if is_clear_question = true ∨ user_text.contains '?' = true ∨
       is_imperative_search = true ∨ 1 ≤ info_keyword_count ∨
       8 < (pySplit user_text).length then
      txt "I'll search for information about: " ++ user_text
    else
      staticIntroStatement agentInstruction

/-! ## Shared lemmas -/

theorem startsWith_append (n a b : Text) (h : startsWith n a = true) :
    startsWith n (a ++ b) = true := by
  induction n generalizing a with
  | nil => rfl
  | cons x ns ih =>
    cases a with
    | nil => simp [startsWith] at h
    | cons c cs =>
      simp only [startsWith, Bool.and_eq_true] at h ⊢
      exact ⟨h.1, ih cs h.2⟩

theorem pyIn_append_left (n a b : Text) (h : pyIn n a = true) :
    pyIn n (a ++ b) = true := by
  induction a with
  | nil =>
    simp only [pyIn] at h
    cases n with
    | nil => cases b <;> simp [pyIn, startsWith]
    | cons x xs => simp [startsWith] at h
  | cons c cs ih =>
    simp only [pyIn, Bool.or_eq_true] at h
    rcases h with h | h
    · simp only [List.cons_append, pyIn, Bool.or_eq_true]
      exact Or.inl (startsWith_append n (c :: cs) b h)
    · simp only [List.cons_append, pyIn, Bool.or_eq_true]
      exact Or.inr (ih h)

theorem updateLanguage_adopts (st : LangState) (d : Text) :
    (updateLanguage st d).user_lang = d := by
  unfold updateLanguage
  dsimp only
  split
  · split
    · split
      · rfl
      · rename_i h
        push_neg at h
        exact h.2.symm
    · rfl
  · split
    · split
      · rfl
      · rename_i h
        push_neg at h
        exact h.2.symm
    · rfl

theorem updateLanguage_hist (st : LangState) (d : Text) :
    (updateLanguage st d).language_history =
      if 5 < (st.language_history ++ [d]).length then
        (st.language_history ++ [d]).tail
      else st.language_history ++ [d] := by
  unfold updateLanguage
  dsimp only
  by_cases h5 : 5 < (st.language_history ++ [d]).length
  · simp only [if_pos h5]
    split
    · split <;> rfl
    · rfl
  · simp only [if_neg h5]
    split
    · split <;> rfl
    · rfl

theorem lexicalFallback_mem (t : Text) : lexicalFallback t ∈ SUPPORTED_CODES := by
  unfold lexicalFallback
  dsimp only
  split
  · decide
  · split
    · decide
    · split <;> decide

theorem shortTextHeuristic_mem (t : Text) (l : Text)
    (h : shortTextHeuristic t = some l) : l ∈ SUPPORTED_CODES := by
  unfold shortTextHeuristic at h
  repeat' split at h
  all_goals simp_all
  all_goals subst h
  all_goals decide

theorem detect_language_mem (backend : Text → Option Text) (text : Text) :
    detect_language backend text ∈ SUPPORTED_CODES := by
  unfold detect_language
  split
  · decide
  · dsimp only
    split
    · rename_i l heq
      split at heq
      · exact shortTextHeuristic_mem _ l heq
      · cases heq
    · split
      · split
        · rename_i lang _ hc
          exact List.mem_of_elem_eq_true hc
        · decide
      · exact lexicalFallback_mem _

theorem translate_text_ne_nil (backend : Text → Text → Except Unit (Option Text))
    (text dest : Text) (h : text ≠ []) :
    translate_text backend text dest ≠ [] := by
  unfold translate_text
  split
  · exact h
  · rename_i hg
    push_neg at hg
    split
    · exact h
    · dsimp only
      split
      · exact hg.2
      · split
        · exact hg.2
        · exact hg.2
        · split
          · exact hg.2
          · rename_i hrt
            split
            · exact hrt
            · exact hg.2

/-! ## Claim theorems -/

/-- C5: for every starting state of the language tracker and every code
    `X`, after two consecutive turns whose raw detection is `X` the
    adopted current language is `X` (the starting state is arbitrary, so
    this covers both the bootstrap phase with fewer than 3 history
    entries and the majority-smoothing phase). -/
theorem c5_two_detections_adopt (st : LangState) (X : Text) :
    (updateLanguage (updateLanguage st X) X).user_lang = X :=
  updateLanguage_adopts _ X

/-- C3 counterexample: on the one-word text `"hai"` (which dodges the
    short-text character heuristics), a statistical detector that returns
    the unsupported code `"xx"` makes `detect_language` return `"en"`
    directly, while a detector that raises makes it return `"hi"` via the
    lexical-keyword fallback — so an unsupported code does *not* take the
    same lexical-heuristic fallback path as a detector exception. -/
theorem c3_counterexample :
    detect_language (fun _ => some (txt "xx")) (txt "hai") = txt "en" ∧
    lexicalFallback (pyStrip (txt "hai")) = txt "hi" ∧
    detect_language (fun _ => none) (txt "hai") = txt "hi" :=
  ⟨by decide, by decide, by decide⟩

/-- C3 amended: for every text that reaches the statistical stage
    (non-empty after stripping, character heuristics not firing), a
    detector exception falls back to the lexical-keyword heuristics, but
    a detector code outside the supported set returns `"en"` immediately,
    without consulting the lexical heuristics. -/
theorem c3_amended (backend : Text → Option Text) (text : Text)
    (hne : ¬(text = [] ∨ pyStrip text = []))
    (hheur : shortTextHeuristic (pyStrip text) = none) :
    (backend (pyStrip text) = none →
      detect_language backend text = lexicalFallback (pyStrip text)) ∧
    (∀ c, backend (pyStrip text) = some c →
      SUPPORTED_CODES.contains c = false →
      detect_language backend text = txt "en") := by
  constructor
  · intro hb
    unfold detect_language
    rw [if_neg hne]
    dsimp only
    rw [hb]
    split
    · rename_i l heq
      split at heq
      · rw [hheur] at heq; cases heq
      · cases heq
    · rfl
  · intro c hb hc
    unfold detect_language
    rw [if_neg hne]
    dsimp only
    rw [hb]
    split
    · rename_i l heq
      split at heq
      · rw [hheur] at heq; cases heq
      · cases heq
    · dsimp only
      rw [if_neg (by intro h; rw [h] at hc; cases hc)]

/-- C3 witness: the amended theorem applied at the concrete detector that
    raises and the concrete text `"hai"`. -/
theorem c3_witness :
    detect_language (fun _ => none) (txt "hai") = lexicalFallback (pyStrip (txt "hai")) :=
  (c3_amended (fun _ => none) (txt "hai") (by decide) (by decide)).1 rfl

/-- C6 counterexample: when the translation backend raises on the input
    `" hello there "` (destination `"fr"`), `translate_text` returns the
    *stripped* text `"hello there"`, which differs from the original
    input — the claim's "returns the original input text unchanged" fails
    on inputs with surrounding whitespace. -/
theorem c6_counterexample :
    translate_text (fun _ _ => .error ()) (txt " hello there ") (txt "fr") =
      txt "hello there" ∧
    txt "hello there" ≠ txt " hello there " :=
  ⟨by decide, by decide⟩

/-- C6 amended: `translate_text` is total (never raises, by
    construction), and whenever the backend raises, returns a missing or
    whitespace-only result, or returns text case-insensitively equal to
    the (stripped) input, the function returns the input text up to
    whitespace trimming: either the original text or its stripped form
    (equal to the original whenever the input has no surrounding
    whitespace). -/
theorem c6_amended (backend : Text → Text → Except Unit (Option Text))
    (text dest : Text)
    (hb : ∀ rt, backend (pyStrip text) dest = .ok (some rt) →
          pyStrip rt = [] ∨ pyLower (pyStrip rt) = pyLower (pyStrip text)) :
    translate_text backend text dest = text ∨
    translate_text backend text dest = pyStrip text := by
  unfold translate_text
  split
  · exact Or.inl rfl
  · split
    · exact Or.inl rfl
    · dsimp only
      split
      · exact Or.inr rfl
      · split
        · exact Or.inr rfl
        · exact Or.inr rfl
        · rename_i rt heq
          split
          · exact Or.inr rfl
          · rename_i hne
            split
            · rename_i hdiff
              rcases hb rt heq with h | h
              · exact absurd h hne
              · exact absurd h hdiff
            · exact Or.inr rfl

/-- C6 witness: the amended theorem applied at a raising backend and the
    whitespace-free text `"hello there"`. -/
theorem c6_witness :
    translate_text (fun _ _ => .error ()) (txt "hello there") (txt "fr") =
      txt "hello there" ∨
    translate_text (fun _ _ => .error ()) (txt "hello there") (txt "fr") =
      pyStrip (txt "hello there") :=
  c6_amended (fun _ _ => .error ()) (txt "hello there") (txt "fr")
    (fun _ h => nomatch h)

/-- C7 counterexample: for the reply `"FEMALE"` with no backend result,
    persona `"female"` and TTS language `"en"`, the selected TTS text is
    `"FEMALE"`, which does not contain the literal marker `"female"` at
    all (the already-present check is case-insensitive, but the claimed
    containment is of the literal lowercase marker). -/
theorem c7_counterexample :
    get_strict_tts_text (fun _ _ => .error ()) (txt "FEMALE") none
      (txt "female") (txt "en") = txt "FEMALE" ∧
    pyIn (txt "female") (txt "FEMALE") = false :=
  ⟨by decide, by decide⟩

/-- C7 amended: when `persona == "female"`, the selected TTS text always
    contains `"female"` case-insensitively (i.e. its lowercasing contains
    the marker); the fixed annotation `"(female persona) "` is prepended
    exactly when the lowercased translated source text does not already
    contain `"female"`; and Scenario 5 holds:
    `select_tts_text("Bonjour", None, "female", "en") = "(female persona) Bonjour"`. -/
theorem c7_amended (backend : Text → Text → Except Unit (Option Text))
    (reply : Text) (web : Option Text) (lang : Text) :
    pyIn (txt "female")
      (pyLower (get_strict_tts_text backend reply web (txt "female") lang)) = true ∧
    (pyIn (txt "female")
        (pyLower (translate_text backend (ttsSource web reply) lang)) = false →
      get_strict_tts_text backend reply web (txt "female") lang =
        txt "(female persona) " ++
          translate_text backend (ttsSource web reply) lang) ∧
    (pyIn (txt "female")
        (pyLower (translate_text backend (ttsSource web reply) lang)) = true →
      get_strict_tts_text backend reply web (txt "female") lang =
        translate_text backend (ttsSource web reply) lang) ∧
    get_strict_tts_text backend (txt "Bonjour") none (txt "female") (txt "en") =
      txt "(female persona) Bonjour" := by
  refine ⟨?_, ?_, ?_, rfl⟩
  · unfold get_strict_tts_text
    dsimp only
    split
    · rename_i h
      rw [pyLower, List.map_append]
      exact pyIn_append_left _ _ _ (by decide)
    · rename_i h
      push_neg at h
      have := h rfl
      simpa using eq_true_of_ne_false this
  · intro h
    unfold get_strict_tts_text
    dsimp only
    rw [if_pos ⟨rfl, h⟩]
  · intro h
    unfold get_strict_tts_text
    dsimp only
    rw [if_neg (by simp [h])]

/-- C7 witness: the amended theorem's prepend branch applied at the reply
    `"Hi"`, no backend result, persona `"female"`, language `"en"`. -/
theorem c7_witness :
    get_strict_tts_text (fun _ _ => .error ()) (txt "Hi") none
      (txt "female") (txt "en") =
      txt "(female persona) " ++
        translate_text (fun _ _ => .error ()) (ttsSource none (txt "Hi")) (txt "en") :=
  (c7_amended (fun _ _ => .error ()) (txt "Hi") none (txt "en")).2.1 (by decide)

/-- C8 counterexample: an empty reply with no backend result and persona
    `"male"` yields the empty string — the selector's output is not
    guaranteed non-empty. -/
theorem c8_counterexample :
    get_strict_tts_text (fun _ _ => .error ()) (txt "") none
      (txt "male") (txt "en") = [] :=
  by decide

/-- C8 amended: the TTS text selector returns a non-empty string whenever
    the persona is `"female"` or the selected source text (the web result
    if truthy, else the reply) is non-empty; the guarantee fails only for
    an empty source with a persona other than `"female"`. -/
theorem c8_amended (backend : Text → Text → Except Unit (Option Text))
    (reply : Text) (web : Option Text) (persona lang : Text)
    (h : persona = txt "female" ∨ ttsSource web reply ≠ []) :
    get_strict_tts_text backend reply web persona lang ≠ [] := by
  rcases h with h | h
  · subst h
    unfold get_strict_tts_text
    dsimp only
    split
    · exact List.append_ne_nil_of_left_ne_nil (by decide) _
    · rename_i hc
      push_neg at hc
      have hp := eq_true_of_ne_false (hc rfl)
      intro ht
      rw [ht] at hp
      exact absurd hp (by decide)
  · have hne := translate_text_ne_nil backend _ lang h
    unfold get_strict_tts_text
    dsimp only
    split
    · exact List.append_ne_nil_of_left_ne_nil (by decide) _
    · exact hne

/-- C8 witness: the amended theorem applied at an empty reply with
    persona `"female"`. -/
theorem c8_witness :
    get_strict_tts_text (fun _ _ => .error ()) (txt "") none
      (txt "female") (txt "en") ≠ [] :=
  c8_amended (fun _ _ => .error ()) (txt "") none (txt "female") (txt "en")
    (Or.inl rfl)

/-- C9: every user-turn update of the language state preserves the
    `LanguageState` invariant: for every statistical-detector backend,
    every starting state whose history has at most 5 entries, and every
    input text, the updated `current_language` is a member of the
    supported-language set, and the updated history is the previous
    history plus this turn's detection, trimmed to the 5 most recent
    codes by evicting the oldest first. -/
theorem c9_language_state_invariant (backend : Text → Option Text)
    (st : LangState) (text : Text)
    (h : st.language_history.length ≤ 5) :
    (processUserInput backend st text).user_lang ∈ SUPPORTED_CODES ∧
    (processUserInput backend st text).language_history.length ≤ 5 ∧
    (processUserInput backend st text).language_history =
      (st.language_history ++ [detect_language backend text]).drop
        (st.language_history.length + 1 - 5) := by
  have h1 : (processUserInput backend st text).user_lang =
      detect_language backend text :=
    updateLanguage_adopts st _
  have h2 := updateLanguage_hist st (detect_language backend text)
  refine ⟨?_, ?_, ?_⟩
  · rw [h1]
    exact detect_language_mem backend text
  · show (updateLanguage st _).language_history.length ≤ 5
    have hlen : (st.language_history ++ [detect_language backend text]).length =
        st.language_history.length + 1 := by
      simp [List.length_append]
    rw [h2]
    split
    · rename_i h5
      rw [List.length_tail, hlen]
      omega
    · rename_i h5
      rw [hlen] at h5 ⊢
      omega
  · show (updateLanguage st _).language_history = _
    have hlen : (st.language_history ++ [detect_language backend text]).length =
        st.language_history.length + 1 := by
      simp [List.length_append]
    rw [h2]
    by_cases h5 : 5 < (st.language_history ++ [detect_language backend text]).length
    · rw [if_pos h5]
      rw [hlen] at h5
      have he : st.language_history.length + 1 - 5 = 1 := by omega
      rw [he, List.drop_one]
    · rw [if_neg h5]
      rw [hlen] at h5
      have he : st.language_history.length + 1 - 5 = 0 := by omega
      rw [he, List.drop_zero]

/-- C9 witness: the invariant theorem applied at the initial state, a
    raising detector backend, and the text `"hai"`. -/
theorem c9_witness :
    (processUserInput (fun _ => none) ⟨txt "en", []⟩ (txt "hai")).user_lang ∈
      SUPPORTED_CODES ∧
    (processUserInput (fun _ => none) ⟨txt "en", []⟩ (txt "hai")).language_history.length ≤ 5 ∧
    (processUserInput (fun _ => none) ⟨txt "en", []⟩ (txt "hai")).language_history =
      ((⟨txt "en", []⟩ : LangState).language_history ++
        [detect_language (fun _ => none) (txt "hai")]).drop
        ((⟨txt "en", []⟩ : LangState).language_history.length + 1 - 5) :=
  c9_language_state_invariant (fun _ => none) ⟨txt "en", []⟩ (txt "hai")
    (by decide)

/-- C2 counterexample: with the concrete instruction text
    `"Intro statement. # Examples stuff"`, the utterance `"hello"`
    produces exactly the generic static introductory statement
    (`AGENT_INSTRUCTION.split("# Examples")[0].strip()`), the same reply
    as the non-greeting `"ok"` — there is no canned greeting reserved for
    the greeting tokens. -/
theorem c2_counterexample :
    classifyAgentReply (txt "Intro statement. # Examples stuff") (txt "hello") =
      staticIntroStatement (txt "Intro statement. # Examples stuff") ∧
    staticIntroStatement (txt "Intro statement. # Examples stuff") =
      txt "Intro statement." ∧
    classifyAgentReply (txt "Intro statement. # Examples stuff") (txt "ok") =
      txt "Intro statement." :=
  ⟨by decide, by decide, by decide⟩

/-- C2 amended: the utterance `"hello"` matches no device pattern and no
    tool/info heuristic, and the conversational fallback returns the
    assistant's generic static introductory statement (the instruction
    text truncated at `"# Examples"` and stripped) — the fallback has no
    greeting-specific branch, for any instruction text. -/
theorem c2_hello_static_intro (instr : Text) :
    classifyAgentReply instr (txt "hello") = staticIntroStatement instr ∧
    detect_command (txt "hello") = none :=
  ⟨rfl, by decide⟩

/-- C1 counterexample: the email regex is searched against the
    *lowercased* utterance, so for Scenario 2's utterance the extracted
    subject is `"hi"` (not `"Hi"`); moreover an utterance containing an
    email keyword (`"send"`) but also a weather keyword (`"rain"`) takes
    the weather branch and produces the weather clarification, not the
    email clarification. -/
theorem c1_counterexample :
    emailFields (txt "send email to a@b.com subject Hi message Hello there") ≠
      some (txt "a@b.com", txt "Hi", txt "Hello there") ∧
    anyKeyword emailKeywords (pyStrip (pyLower (txt "send rain report"))) = true ∧
    emailFields (txt "send rain report") = none ∧
    classifyAgentReply (txt "") (txt "send rain report") = weatherClarification ∧
    weatherClarification ≠ emailClarification :=
  ⟨by decide, by decide, by decide, by decide, by decide⟩

/-- C1 amended: for Scenario 2's utterance the classifier takes the email
    branch (and the device catalog does not match), but the three fields
    are extracted from the lowercased utterance — recipient `"a@b.com"`,
    subject `"hi"`, body `"hello there"`; and every utterance containing
    an email keyword but no weather keyword whose lowercased text does
    not match the `send email to <addr> subject <subject> message <body>`
    sub-pattern produces the clarification prompt stating the exact
    required phrasing. -/
theorem c1_email_branch :
    emailFields (txt "send email to a@b.com subject Hi message Hello there") =
      some (txt "a@b.com", txt "hi", txt "hello there") ∧
    detect_command (txt "send email to a@b.com subject Hi message Hello there") =
      none ∧
    (∀ instr : Text,
      classifyAgentReply instr
        (txt "send email to a@b.com subject Hi message Hello there") =
        txt "I'll send an email to a@b.com with subject 'hi'.") ∧
    (∀ (instr text : Text),
      anyKeyword weatherKeywords (pyStrip (pyLower text)) = false →
      anyKeyword emailKeywords (pyStrip (pyLower text)) = true →
      emailFields text = none →
      classifyAgentReply instr text = emailClarification) := by
  refine ⟨by decide, by decide, fun instr => rfl, ?_⟩
  intro instr text hw he hm
  unfold classifyAgentReply
  simp only [hw, Bool.false_eq_true, if_false, he, if_true, hm]

/-- C1 witness: the clarification part of the amended theorem applied at
    the utterance `"compose a tune"` (email keyword `"compose"`, no
    weather keyword, sub-pattern not matched). -/
theorem c1_witness :
    classifyAgentReply (txt "") (txt "compose a tune") = emailClarification :=
  c1_email_branch.2.2.2 (txt "") (txt "compose a tune")
    (by decide) (by decide) (by decide)

/-! ## The catalog scan: first-match characterisation -/

theorem detectGo_eq_none_iff (text : Text) (l : List (String × RE × Nat)) :
    detectGo text l = none ↔ ∀ e ∈ l, searchFrom e.2.1 text = none := by
  induction l with
  | nil => simp [detectGo]
  | cons e rest ih =>
    simp only [detectGo]
    cases h : searchFrom e.2.1 text with
    | some caps =>
      simp only
      constructor
      · intro hx; cases hx
      · intro hall
        have := hall e (List.mem_cons_self e rest)
        rw [h] at this
        cases this
    | none =>
      simp only
      rw [ih]
      constructor
      · intro hall e' he'
        rcases List.mem_cons.mp he' with rfl | hmem
        · exact h
        · exact hall e' hmem
      · intro hall e' he'
        exact hall e' (List.mem_cons_of_mem e he')

theorem detectGo_first (text : Text) (l : List (String × RE × Nat))
    (i : Nat) (hi : i < l.length) (caps : Caps)
    (hm : searchFrom (l.get ⟨i, hi⟩).2.1 text = some caps)
    (hprev : ∀ j (hj : j < i),
      searchFrom (l.get ⟨j, Nat.lt_trans hj hi⟩).2.1 text = none) :
    detectGo text l =
      some ((l.get ⟨i, hi⟩).1, getGroups (l.get ⟨i, hi⟩).2.2 caps) := by
  induction l generalizing i with
  | nil => cases hi
  | cons e rest ih =>
    cases i with
    | zero =>
      simp only [List.get] at hm ⊢
      simp [detectGo, hm]
    | succ n =>
      have h0 : searchFrom e.2.1 text = none := hprev 0 (Nat.succ_pos n)
      simp only [detectGo, h0]
      exact ih n (Nat.lt_of_succ_lt_succ hi) hm
        (fun j hj => hprev (j + 1) (Nat.succ_lt_succ hj))

theorem detectGo_some (text : Text) (l : List (String × RE × Nat))
    (nm : String) (g : List (Option Text))
    (h : detectGo text l = some (nm, g)) :
    ∃ k, ∃ hk : k < l.length,
      (l.get ⟨k, hk⟩).1 = nm ∧
      (searchFrom (l.get ⟨k, hk⟩).2.1 text).isSome = true ∧
      ∀ j (hj : j < k),
        searchFrom (l.get ⟨j, Nat.lt_trans hj hk⟩).2.1 text = none := by
  induction l with
  | nil => cases h
  | cons e rest ih =>
    cases hs : searchFrom e.2.1 text with
    | some caps =>
      simp only [detectGo, hs] at h
      refine ⟨0, Nat.succ_pos _, ?_, ?_, ?_⟩
      · exact (Prod.mk.injEq _ _ _ _ ▸ (Option.some.injEq _ _ ▸ h)).1
      · simp only [List.get]
        rw [hs]
        rfl
      · intro j hj
        cases hj
    | none =>
      simp only [detectGo, hs] at h
      obtain ⟨k, hk, h1, h2, h3⟩ := ih h
      refine ⟨k + 1, Nat.succ_lt_succ hk, h1, h2, ?_⟩
      intro j hj
      cases j with
      | zero => exact hs
      | succ m => exact h3 m (Nat.lt_of_succ_lt_succ hj)

theorem cmdNamesNodup : (COMMAND_PATTERNS.map (fun e => e.1)).Nodup := by decide

theorem cmdName_ne (i j : Nat) (hi : i < COMMAND_PATTERNS.length)
    (hj : j < COMMAND_PATTERNS.length) (hne : i ≠ j) :
    (COMMAND_PATTERNS.get ⟨i, hi⟩).1 ≠ (COMMAND_PATTERNS.get ⟨j, hj⟩).1 := by
  intro hequ
  have h1 := List.get_map_rev (fun e => e.1) (l := COMMAND_PATTERNS) (n := ⟨i, hi⟩)
  have h2 := List.get_map_rev (fun e => e.1) (l := COMMAND_PATTERNS) (n := ⟨j, hj⟩)
  rw [h1, h2] at hequ
  have hf := cmdNamesNodup.get_inj_iff.mp hequ
  exact hne (by simpa using congrArg Fin.val hf)

/-- C4: device-command matching scans the fixed catalog in declaration
    order and returns the first match.  For every utterance: (1) the scan
    returns `(None, None)` exactly when no catalog regex matches anywhere
    in the text; (2) if entry `i` matches and no earlier entry matches,
    the result is entry `i`'s name and captured groups; (3) whenever an
    earlier-declared entry matches, the result never carries a
    later-declared entry's name; (4) matching is case-insensitive and
    unanchored: `"PLEASE OPEN WHATSAPP"` matches `open_app` mid-text with
    captured group `"WHATSAPP"`. -/
theorem c4_first_match_wins (text : Text) :
    (detect_command text = none ↔
      ∀ e ∈ COMMAND_PATTERNS, searchFrom e.2.1 text = none) ∧
    (∀ (i : Nat) (hi : i < COMMAND_PATTERNS.length) (caps : Caps),
      searchFrom (COMMAND_PATTERNS.get ⟨i, hi⟩).2.1 text = some caps →
      (∀ j (hj : j < i),
        searchFrom (COMMAND_PATTERNS.get ⟨j, Nat.lt_trans hj hi⟩).2.1 text = none) →
      detect_command text =
        some ((COMMAND_PATTERNS.get ⟨i, hi⟩).1,
          getGroups (COMMAND_PATTERNS.get ⟨i, hi⟩).2.2 caps)) ∧
    (∀ (i j : Nat) (hi : i < COMMAND_PATTERNS.length)
        (hj : j < COMMAND_PATTERNS.length), i < j →
      (searchFrom (COMMAND_PATTERNS.get ⟨i, hi⟩).2.1 text).isSome = true →
      ∀ g, detect_command text ≠ some ((COMMAND_PATTERNS.get ⟨j, hj⟩).1, g)) ∧
    detect_command (txt "PLEASE OPEN WHATSAPP") =
      some ("open_app", [some (txt "WHATSAPP")]) := by
  refine ⟨detectGo_eq_none_iff text COMMAND_PATTERNS,
          detectGo_first text COMMAND_PATTERNS, ?_, by decide⟩
  intro i j hi hj hij hm g hcon
  obtain ⟨k, hk, hname, hks, hkprev⟩ :=
    detectGo_some text COMMAND_PATTERNS _ g hcon
  have hki : k ≤ i := by
    by_contra hgt
    push_neg at hgt
    have hnone := hkprev i hgt
    rw [hnone] at hm
    cases hm
  exact cmdName_ne k j hk hj (Nat.ne_of_lt (Nat.lt_of_le_of_lt hki hij)) hname

/-- C4 witness: the first-match part applied at the utterance
    `"open whatsapp"` and index 0 (the `open_app` entry). -/
theorem c4_witness :
    detect_command (txt "open whatsapp") =
      some ((COMMAND_PATTERNS.get ⟨0, by decide⟩).1,
        getGroups (COMMAND_PATTERNS.get ⟨0, by decide⟩).2.2 [(1, txt "whatsapp")]) :=
  (c4_first_match_wins (txt "open whatsapp")).2.1 0 (by decide)
    [(1, txt "whatsapp")] (by decide) (fun j hj => absurd hj (Nat.not_lt_zero j))

/-! ## Symbolic matcher lemmas for the `open (\w+)` pattern -/

theorem dropLit_self_append (s r : Text) : dropLit s (s ++ r) = some r := by
  induction s with
  | nil => rfl
  | cons c cs ih =>
    simp only [List.cons_append, dropLit, ciEq]
    rw [if_pos (by simp)]
    exact ih

theorem dropLit_append_split (a b cs r : Text)
    (h : dropLit (a ++ b) cs = some r) :
    ∃ mid, dropLit a cs = some mid ∧ dropLit b mid = some r := by
  induction a generalizing cs with
  | nil => exact ⟨cs, rfl, h⟩
  | cons c a' ih =>
    cases cs with
    | nil => simp [dropLit] at h
    | cons d cs' =>
      simp only [List.cons_append, dropLit] at h
      by_cases hci : ciEq c d = true
      · rw [if_pos hci] at h
        obtain ⟨mid, h1, h2⟩ := ih cs' h
        exact ⟨mid, by simp [dropLit, hci, h1], h2⟩
      · rw [if_neg hci] at h
        cases h

theorem isWordChar_of_ciEq_lower (a c : Char)
    (ha : 97 ≤ a.toNat ∧ a.toNat ≤ 122) (h : ciEq a c = true) :
    isWordChar c = true := by
  have heq : a.toLower = c.toLower := of_decide_eq_true h
  by_cases hc : c.toNat ≥ 65 ∧ c.toNat ≤ 90
  · simp only [isWordChar, Bool.or_eq_true, Bool.and_eq_true, decide_eq_true_eq]
    exact Or.inl (Or.inl (Or.inr ⟨hc.1, hc.2⟩))
  · have hcl : c.toLower = c := by
      unfold Char.toLower
      rw [if_neg hc]
    have hal : a.toLower = a := by
      unfold Char.toLower
      rw [if_neg (by omega)]
    have hac : a = c := by rw [← hal, heq, hcl]
    have hn : a.toNat = c.toNat := by rw [hac]
    simp only [isWordChar, Bool.or_eq_true, Bool.and_eq_true, decide_eq_true_eq]
    exact Or.inl (Or.inl (Or.inl ⟨by omega, by omega⟩))

theorem orElse_isSome_of_left {a : Option Caps} {b : Unit → Option Caps}
    (h : a.isSome = true) : (a.orElse b).isSome = true := by
  cases a with
  | some x => rfl
  | none => cases h

theorem ranges_reverse_head (n : Nat) (hn : 0 < n) :
    ((List.range n).map (· + 1)).reverse =
      n :: ((List.range (n - 1)).map (· + 1)).reverse := by
  cases n with
  | zero => cases hn
  | succ m =>
    simp [List.range_succ]

theorem matchPlus_isSome (k : CC) (cs : Text)
    (cont : Text → Caps → Option Caps) (caps : Caps)
    (hc : ∀ rest caps', (cont rest caps').isSome = true)
    (hpos : 0 < (cs.takeWhile (ccMatch k)).length) :
    (matchPlus k false cs cont caps).isSome = true := by
  unfold matchPlus
  dsimp only
  rw [if_neg (by simp)]
  rw [ranges_reverse_head _ hpos]
  unfold tryLens
  exact orElse_isSome_of_left (hc _ _)

theorem mat_openApp_isSome (cs mid : Text)
    (hdrop : dropLit (txt "open ") cs = some mid)
    (hmid : 0 < (mid.takeWhile isWordChar).length) :
    (mat openAppRE cs (fun _ caps => some caps) []).isSome = true := by
  unfold openAppRE wplus
  simp only [mat, hdrop]
  exact matchPlus_isSome _ _ _ _ (fun _ _ => rfl) hmid

theorem mat_litOpen_implies (a0 : Char) (aw' : Text)
    (hlo : 97 ≤ a0.toNat ∧ a0.toNat ≤ 122) (cs : Text)
    (h : (mat (.lit (txt "open " ++ (a0 :: aw'))) cs
            (fun _ caps => some caps) []).isSome = true) :
    (mat openAppRE cs (fun _ caps => some caps) []).isSome = true := by
  rcases hdl : dropLit (txt "open " ++ (a0 :: aw')) cs with _ | rest
  · simp only [mat, hdl] at h
    cases h
  · obtain ⟨mid, h1, h2⟩ := dropLit_append_split (txt "open ") (a0 :: aw') cs rest hdl
    cases mid with
    | nil => cases h2
    | cons m0 mid' =>
      simp only [dropLit] at h2
      by_cases hci : ciEq a0 m0 = true
      · have hw : isWordChar m0 = true := isWordChar_of_ciEq_lower a0 m0 hlo hci
        apply mat_openApp_isSome cs (m0 :: mid') h1
        simp [List.takeWhile_cons, hw]
      · rw [if_neg hci] at h2
        cases h2

theorem searchFrom_isSome_mono (p q : RE)
    (himp : ∀ cs, (mat p cs (fun _ caps => some caps) []).isSome = true →
      (mat q cs (fun _ caps => some caps) []).isSome = true) :
    ∀ cs, (searchFrom p cs).isSome = true → (searchFrom q cs).isSome = true := by
  intro cs
  induction cs with
  | nil =>
    intro hp
    simp only [searchFrom] at hp ⊢
    exact himp [] hp
  | cons c rest ih =>
    intro hp
    simp only [searchFrom] at hp ⊢
    cases hq : mat q (c :: rest) (fun _ caps => some caps) [] with
    | some caps => simp [hq]
    | none =>
      simp only [hq]
      cases hpm : mat p (c :: rest) (fun _ caps => some caps) [] with
      | some caps =>
        have := himp (c :: rest) (by rw [hpm]; rfl)
        rw [hq] at this
        cases this
      | none =>
        rw [hpm] at hp
        exact ih hp

theorem mat_openApp_full (w : Text) (hne : w ≠ [])
    (hw : ∀ c ∈ w, isWordChar c = true) :
    mat openAppRE (txt "open " ++ w) (fun _ caps => some caps) [] =
      some [(1, w)] := by
  have h1 : dropLit (txt "open ") (txt "open " ++ w) = some w :=
    dropLit_self_append _ w
  have htw : w.takeWhile (ccMatch .word) = w :=
    List.takeWhile_eq_self_iff.mpr hw
  have hpos : 0 < w.length := List.length_pos.mpr hne
  unfold openAppRE wplus
  simp only [mat, h1, matchPlus, htw]
  rw [if_neg (by simp)]
  rw [ranges_reverse_head _ hpos]
  unfold tryLens
  simp only [List.drop_length, Nat.sub_zero, List.length_nil, List.take_length,
    List.nil_append, Option.orElse]

theorem searchFrom_openApp_full (w : Text) (hne : w ≠ [])
    (hw : ∀ c ∈ w, isWordChar c = true) :
    searchFrom openAppRE (txt "open " ++ w) = some [(1, w)] := by
  have hmat := mat_openApp_full w hne hw
  show searchFrom openAppRE ('o' :: (txt "pen " ++ w)) = some [(1, w)]
  simp only [searchFrom]
  have hmat' : mat openAppRE ('o' :: (txt "pen " ++ w))
      (fun _ caps => some caps) [] = some [(1, w)] := hmat
  rw [hmat']

theorem bareOpen_never (nm : String) (a0 : Char) (aw' : Text)
    (hlo : 97 ≤ a0.toNat ∧ a0.toNat ≤ 122)
    (hnm : nm ≠ "open_app")
    (hent : ∀ k (hk : k < COMMAND_PATTERNS.length),
      (COMMAND_PATTERNS.get ⟨k, hk⟩).1 = nm →
      (COMMAND_PATTERNS.get ⟨k, hk⟩).2.1 = .lit (txt "open " ++ (a0 :: aw')))
    (text : Text) (g : List (Option Text)) :
    detect_command text ≠ some (nm, g) := by
  intro hcon
  obtain ⟨k, hk, hname, hks, hkprev⟩ :=
    detectGo_some text COMMAND_PATTERNS nm g hcon
  have hk0 : 0 < k := by
    rcases Nat.eq_zero_or_pos k with rfl | h
    · exact absurd hname.symm hnm
    · exact h
  have hpat := hent k hk hname
  rw [hpat] at hks
  have hopen : (searchFrom openAppRE text).isSome = true :=
    searchFrom_isSome_mono _ _
      (fun cs h => mat_litOpen_implies a0 aw' hlo cs h) text hks
  have h0 : searchFrom openAppRE text = none := hkprev 0 hk0
  rw [h0] at hopen
  cases hopen

/-- C10: the generic `open_app` pattern is declared first, so every
    utterance of the form `open <single-word-app>` matches `open_app`
    with the app name as its captured group, and the app-specific
    bare-`open` catalog entries declared after it can never be the result
    of `detect_command` for any utterance: any text matched by one of
    their literal patterns is also matched by `open_app`, which wins. -/
theorem c10_open_app_shadows :
    (∀ w : Text, w ≠ [] → (∀ c ∈ w, isWordChar c = true) →
      detect_command (txt "open " ++ w) = some ("open_app", [some w])) ∧
    (∀ nm ∈ (["open_whatsapp", "open_snapchat", "open_instagram",
              "open_facebook", "open_camera", "open_gallery",
              "open_contacts", "open_tiktok", "open_twitter",
              "open_linkedin", "open_telegram", "open_discord",
              "open_zoom", "open_teams"] : List String),
      ∀ (text : Text) (g : List (Option Text)),
        detect_command text ≠ some (nm, g)) := by
  constructor
  · intro w hne hw
    have hsearch : searchFrom openAppRE (txt "open " ++ w) = some [(1, w)] :=
      searchFrom_openApp_full w hne hw
    exact detectGo_first (txt "open " ++ w) COMMAND_PATTERNS 0 (by decide)
      [(1, w)] hsearch (fun j hj => absurd hj (Nat.not_lt_zero j))
  · intro nm hnm text g
    simp only [List.mem_cons, List.not_mem_nil, or_false] at hnm
    rcases hnm with rfl | rfl | rfl | rfl | rfl | rfl | rfl | rfl | rfl | rfl | rfl | rfl | rfl | rfl
    · exact bareOpen_never _ 'w' (txt "hatsapp") (by decide) (by decide) (by decide) text g
    · exact bareOpen_never _ 's' (txt "napchat") (by decide) (by decide) (by decide) text g
    · exact bareOpen_never _ 'i' (txt "nstagram") (by decide) (by decide) (by decide) text g
    · exact bareOpen_never _ 'f' (txt "acebook") (by decide) (by decide) (by decide) text g
    · exact bareOpen_never _ 'c' (txt "amera") (by decide) (by decide) (by decide) text g
    · exact bareOpen_never _ 'g' (txt "allery") (by decide) (by decide) (by decide) text g
    · exact bareOpen_never _ 'c' (txt "ontacts") (by decide) (by decide) (by decide) text g
    · exact bareOpen_never _ 't' (txt "iktok") (by decide) (by decide) (by decide) text g
    · exact bareOpen_never _ 't' (txt "witter") (by decide) (by decide) (by decide) text g
    · exact bareOpen_never _ 'l' (txt "inkedin") (by decide) (by decide) (by decide) text g
    · exact bareOpen_never _ 't' (txt "elegram") (by decide) (by decide) (by decide) text g
    · exact bareOpen_never _ 'd' (txt "iscord") (by decide) (by decide) (by decide) text g
    · exact bareOpen_never _ 'z' (txt "oom") (by decide) (by decide) (by decide) text g
    · exact bareOpen_never _ 't' (txt "eams") (by decide) (by decide) (by decide) text g

/-- C10 witness: the theorem applied at the concrete utterance
    `"open snapchat"` (first part) and at the name `open_whatsapp` with
    the utterance `"open whatsapp"` (second part). -/
theorem c10_witness :
    detect_command (txt "open snapchat") =
      some ("open_app", [some (txt "snapchat")]) ∧
    detect_command (txt "open whatsapp") ≠ some ("open_whatsapp", []) :=
  ⟨c10_open_app_shadows.1 (txt "snapchat") (by decide) (by decide),
   c10_open_app_shadows.2 "open_whatsapp" (by decide) (txt "open whatsapp") []⟩

end Atas
